import Mathlib

/-!
Verification development for the ESP8266-DHT22 IoT backend
(`iot-backend/server.js`): a shallow embedding of the Express
request handlers (webhook ingestion, recent readings, latest reading,
today's statistics) and proofs of the specification's claims about them.

JavaScript numbers appearing in JSON payloads are finite, so payload
values are modelled as rationals; `parseFloat` results additionally
distinguish `NaN` and the infinities, which `parseFloat` can produce
from strings.  Strings are modelled as `List Char`.
-/

/-- A JSON-decoded JavaScript value as it appears in `req.body` after
`express.json()`: `undefined` (absent field), `null`, booleans, finite
numbers, or strings.  (Objects and arrays never reach the checked code
paths in a way the claims depend on and are omitted.) -/
inductive JSVal where
  | undef : JSVal
  | null : JSVal
  | bool : Bool → JSVal
  | num : ℚ → JSVal
  | str : List Char → JSVal
deriving DecidableEq, Repr

/-- Result of JavaScript numeric coercion via `parseFloat`: `NaN`,
a signed infinity (from an `Infinity` literal), or a finite number. -/
inductive JSNum where
  | nan : JSNum
  | inf : Bool → JSNum   -- `inf true` is +Infinity, `inf false` is -Infinity
  | finite : ℚ → JSNum
deriving DecidableEq, Repr

namespace JSNum

/-- JavaScript `isNaN` on a coerced number. -/
def isNaN : JSNum → Bool
  | .nan => true
  | _ => false

/-- JavaScript `<` comparison of a coerced number against a finite
constant (`NaN < c` is false, `-Infinity < c` is true, `+Infinity < c`
is false). -/
def ltQ : JSNum → ℚ → Bool
  | .nan, _ => false
  | .inf true, _ => false
  | .inf false, _ => true
  | .finite q, c => q < c

/-- JavaScript `>` comparison of a coerced number against a finite
constant. -/
def gtQ : JSNum → ℚ → Bool
  | .nan, _ => false
  | .inf true, _ => true
  | .inf false, _ => false
  | .finite q, c => q > c

/-- The finite value carried by a coerced number (junk `0` on
`NaN`/infinity; every use is guarded so only finite values reach it). -/
def toQ : JSNum → ℚ
  | .finite q => q
  | _ => 0

end JSNum

/-- JavaScript string whitespace skipped by `parseFloat`/`parseInt`. -/
def jsWsChar (c : Char) : Bool :=
  c = ' ' ∨ c = '\t' ∨ c = '\n' ∨ c = '\r' ∨ c = '\x0b' ∨ c = '\x0c'

/-- Drop leading whitespace. -/
def skipWs : List Char → List Char
  | [] => []
  | c :: cs => if jsWsChar c then skipWs cs else c :: cs

/-- Consume an optional sign, returning `1` or `-1` and the rest. -/
def parseSign : List Char → Int × List Char
  | '+' :: cs => (1, cs)
  | '-' :: cs => (-1, cs)
  | cs => (1, cs)

/-- Take a maximal run of decimal digits, as digit values. -/
def takeDigits : List Char → List Nat × List Char
  | [] => ([], [])
  | c :: cs =>
    if c.isDigit then
      let (ds, rest) := takeDigits cs
      ((c.toNat - 48) :: ds, rest)
    else ([], c :: cs)

/-- Value of a hexadecimal digit, if the character is one. -/
def hexDigitVal (c : Char) : Option Nat :=
  if c.isDigit then some (c.toNat - 48)
  else if 'a' ≤ c ∧ c ≤ 'f' then some (c.toNat - 87)
  else if 'A' ≤ c ∧ c ≤ 'F' then some (c.toNat - 55)
  else none

/-- Take a maximal run of hexadecimal digits, as digit values. -/
def takeHexDigits : List Char → List Nat × List Char
  | [] => ([], [])
  | c :: cs =>
    match hexDigitVal c with
    | some d =>
      let (ds, rest) := takeHexDigits cs
      (d :: ds, rest)
    | none => ([], c :: cs)

/-- Digit-list numeral value in base `b`. -/
def digitsVal (b : Nat) (ds : List Nat) : Nat :=
  ds.foldl (fun a d => a * b + d) 0

/-- The literal `parseFloat` recognises as an infinity. -/
def infinityLit : List Char := ['I', 'n', 'f', 'i', 'n', 'i', 't', 'y']

/-- Exponent part of a decimal literal (`e`/`E`, optional sign, digits);
an `e` not followed by digits contributes no exponent, matching the
longest-valid-prefix rule of `parseFloat`. -/
def parseExpPart : List Char → Int
  | c :: cs =>
    if c = 'e' ∨ c = 'E' then
      let (sg, cs2) := parseSign cs
      let (ds, _) := takeDigits cs2
      if ds = [] then 0 else sg * (digitsVal 10 ds : Int)
    else 0
  | [] => 0

/-- ECMAScript `parseFloat` on a string: skip whitespace, optional sign,
then the longest prefix that is an `Infinity` literal or a decimal
literal `digits [. digits] [exponent]`; `NaN` if no such prefix.
Trailing garbage after the numeric prefix is ignored. -/
def parseFloatStr (s : List Char) : JSNum :=
  let s1 := skipWs s
  let (sgn, s2) := parseSign s1
  if infinityLit.isPrefixOf s2 then .inf (sgn = 1)
  else
    let (ids, s3) := takeDigits s2
    let (fds, s4) :=
      match s3 with
      | '.' :: cs => takeDigits cs
      | other => ([], other)
    if ids = [] ∧ fds = [] then .nan
    else
      let mant : ℚ :=
        (digitsVal 10 ids : ℚ) + (digitsVal 10 fds : ℚ) / (10 : ℚ) ^ fds.length
      .finite ((sgn : ℚ) * mant * (10 : ℚ) ^ parseExpPart s4)

/-- JavaScript `parseFloat` on a decoded JSON value: numbers coerce to
themselves (a finite number round-trips exactly through `String`);
`undefined`, `null` and booleans stringify to words with no numeric
prefix, hence `NaN`. -/
def parseFloat : JSVal → JSNum
  | .num q => .finite q
  | .str s => parseFloatStr s
  | .undef => .nan
  | .null => .nan
  | .bool _ => .nan

/-- ECMAScript `parseInt` with no radix argument: skip whitespace,
optional sign, radix 16 after a `0x`/`0X` prefix, else radix 10; `none`
(`NaN`) when no digit follows.  Trailing garbage is ignored. -/
def parseIntStr (s : List Char) : Option Int :=
  let s1 := skipWs s
  let (sgn, s2) := parseSign s1
  match s2 with
  | '0' :: c :: rest =>
    if c = 'x' ∨ c = 'X' then
      let (ds, _) := takeHexDigits rest
      if ds = [] then none else some (sgn * (digitsVal 16 ds : Int))
    else
      let (ds, _) := takeDigits ('0' :: c :: rest)
      some (sgn * (digitsVal 10 ds : Int))
  | other =>
    let (ds, _) := takeDigits other
    if ds = [] then none else some (sgn * (digitsVal 10 ds : Int))

/-- JavaScript truthiness of a decoded JSON value (`undefined`, `null`,
`false`, `0` and the empty string are falsy). -/
def jsTruthy : JSVal → Bool
  | .undef => false
  | .null => false
  | .bool b => b
  | .num q => q ≠ 0
  | .str s => s ≠ []

/-- A stored Reading, one row of the `readings` table: the validated
temperature and humidity, the `created_at` timestamp value the handler
inserted, and the source tag. -/
structure Reading where
  temperature : ℚ
  humidity : ℚ
  created_at : JSVal
  source : List Char
deriving DecidableEq, Repr

/-- The `source` tag the webhook attaches to every row. -/
def thingspeakTag : List Char := ['t', 'h', 'i', 'n', 'g', 's', 'p', 'e', 'a', 'k']

/-- An inbound webhook request: the optional `x-webhook-secret` header
and the three body fields (`undef` when absent from the JSON body). -/
structure WebhookReq where
  secretHeader : Option (List Char)
  temperature : JSVal
  humidity : JSVal
  created_at : JSVal
deriving DecidableEq, Repr

/-- The four response sites of `app.post('/webhook/thingspeak')`, one
constructor per `return`/final response in the source (the Supabase
insert is modelled as always succeeding, so the 500 insert-error site
does not arise). -/
inductive WebhookOutcome where
  | unauthorized : WebhookOutcome             -- 401 `{error: 'Unauthorized'}`
  | missingFields : WebhookOutcome            -- 400 `{error: 'Faltan campos requeridos'}`
  | valuesOutOfRange : WebhookOutcome         -- 400 `{error: 'Valores fuera de rango'}`
  | saved : Reading → WebhookOutcome          -- 201 `{success: true, data, message}`
deriving DecidableEq, Repr

/-- HTTP status code of each webhook response site. -/
def webhookStatus : WebhookOutcome → Nat
  | .unauthorized => 401
  | .missingFields => 400
  | .valuesOutOfRange => 400
  | .saved _ => 201

/-- The `{error: ...}` message of each webhook response site (`none`
on success). -/
def webhookErrorMsg : WebhookOutcome → Option (List Char)
  | .unauthorized => some ('U' :: 'n' :: 'a' :: 'u' :: 't' :: 'h' :: 'o' :: 'r' :: 'i' :: 'z' :: 'e' :: 'd' :: [])
  | .missingFields => some ('F' :: 'a' :: 'l' :: 't' :: 'a' :: 'n' :: ' ' :: 'c' :: 'a' :: 'm' :: 'p' :: 'o' :: 's' :: [])
  | .valuesOutOfRange => some ('V' :: 'a' :: 'l' :: 'o' :: 'r' :: 'e' :: 's' :: ' ' :: 'f' :: 'u' :: 'e' :: 'r' :: 'a' :: [])
  | .saved _ => none

/-- Result of one webhook request: the response and the store after the
request (the store before, unchanged, on every rejection path). -/
structure WebhookResult where
  outcome : WebhookOutcome
  store : List Reading
deriving DecidableEq, Repr

/-- `app.post('/webhook/thingspeak')`, lines 53-98 of `server.js`:
check the `x-webhook-secret` header against the configured secret
(strict inequality, 401 on mismatch); presence-check `temperature` and
`humidity` (`=== undefined`, 400); `parseFloat` both and reject with a
single combined 400 when either is `NaN` or out of `[-50,100]` /
`[0,100]`; otherwise insert a row with `created_at` defaulted to the
ingestion time when the field is falsy, and respond 201.  `envSecret`
is the configured `WEBHOOK_SECRET`, `now` the ingestion timestamp
`new Date().toISOString()`. -/
def handleWebhook (envSecret : List Char) (store : List Reading) (now : JSVal)
    (req : WebhookReq) : WebhookResult :=
  if req.secretHeader ≠ some envSecret then
    { outcome := .unauthorized, store := store }
  else if req.temperature = JSVal.undef ∨ req.humidity = JSVal.undef then
    { outcome := .missingFields, store := store }
  else
    let temp := parseFloat req.temperature
    let hum := parseFloat req.humidity
    if temp.isNaN || hum.isNaN || temp.ltQ (-50) || temp.gtQ 100
        || hum.ltQ 0 || hum.gtQ 100 then
      { outcome := .valuesOutOfRange, store := store }
    else
      let r : Reading :=
        { temperature := temp.toQ
          humidity := hum.toQ
          created_at := if jsTruthy req.created_at then req.created_at else now
          source := thingspeakTag }
      { outcome := .saved r, store := store ++ [r] }

/-- The Supabase query `order('created_at', ascending: false).limit(k)`
of the readings table: the store is modelled by its newest-first view
`newestFirst`, and `.limit(k)` truncates to the first `k` rows. -/
def storeQueryRecent (newestFirst : List Reading) (k : Int) : List Reading :=
  newestFirst.take k.toNat

/-- The effective limit of `app.get('/api/readings')`, lines 109-116:
`parseInt(req.query.limit) || 100` (so an absent, unparseable or `0`
parameter falls back to 100), capped by `Math.min(limit, 1000)`. -/
def effectiveLimit (limitParam : Option (List Char)) : Int :=
  let limit : Int :=
    match limitParam with
    | none => 100
    | some s =>
      match parseIntStr s with
      | none => 100
      | some n => if n = 0 then 100 else n
  min limit 1000

/-- Response body of `app.get('/api/readings')`. -/
structure ReadingsResp where
  success : Bool
  count : Nat
  data : List Reading
deriving DecidableEq, Repr

/-- `app.get('/api/readings')`, lines 107-130 of `server.js`: query the
store newest-first with the effective limit, then respond with
`count = data.length` and `data.reverse()` (oldest first). -/
def handleReadings (newestFirst : List Reading) (limitParam : Option (List Char)) :
    ReadingsResp :=
  let rows := storeQueryRecent newestFirst (effectiveLimit limitParam)
  { success := true, count := rows.length, data := rows.reverse }

/-- The two response sites of `app.get('/api/readings/latest')`:
`ok r` is the 200 `{success: true, data: r}` response; `dbError` is the
500 `{error: 'Error al obtener datos'}` response of the catch block. -/
inductive LatestResult where
  | ok : Reading → LatestResult
  | dbError : LatestResult
deriving DecidableEq, Repr

/-- `app.get('/api/readings/latest')`, lines 133-153 of `server.js`:
`order('created_at', ascending: false).limit(1).single()`.  Supabase's
`.single()` yields an error object (PGRST116) when the query returns
zero rows, so on an empty store the handler's `if (error) throw error`
jumps to the catch block and responds 500; otherwise it responds with
the newest row. -/
def handleLatest (newestFirst : List Reading) : LatestResult :=
  match newestFirst with
  | [] => .dbError
  | r :: _ => .ok r

/-- One `{min, max, avg}` group of the stats response. -/
structure StatsPair where
  min : Option ℚ
  max : Option ℚ
  avg : Option ℚ
deriving DecidableEq, Repr

/-- The `data` object of `app.get('/api/stats/today')`. -/
structure StatsWindow where
  count : Nat
  temperature : StatsPair
  humidity : StatsPair
deriving DecidableEq, Repr

/-- `Math.min(...xs)` over a non-empty spread, as the code applies it
(the empty case is guarded before the spread is reached; junk `0` on
`[]`). -/
def spreadMin : List ℚ → ℚ
  | [] => 0
  | x :: xs => xs.foldl min x

/-- `Math.max(...xs)` over a non-empty spread (junk `0` on `[]`). -/
def spreadMax : List ℚ → ℚ
  | [] => 0
  | x :: xs => xs.foldl max x

/-- JavaScript `toFixed(2)`, modelled by the rational value of the
string it produces: round to the nearest multiple of `1/100`, ties
toward the larger value (`⌊x·100 + 1/2⌋ / 100`). -/
def toFixed2 (q : ℚ) : ℚ := (round (q * 100) : ℚ) / 100

/-- `xs.reduce((a, b) => a + b, 0)`. -/
def reduceSum (xs : List ℚ) : ℚ := xs.foldl (· + ·) 0

/-- The aggregation of `app.get('/api/stats/today')`, lines 168-196 of
`server.js`, as a function of the sequence of readings the range query
returned: if `data.length === 0`, respond with `count: 0` and all six
extrema `null` (the division by `temps.length` is never reached);
otherwise map out the temperature and humidity columns (`parseFloat` of
a stored numeric value is the value itself) and compute
`Math.min`/`Math.max` of the unrounded values and the
`toFixed(2)`-rounded mean. -/
def computeStats (data : List Reading) : StatsWindow :=
  if data.length = 0 then
    { count := 0
      temperature := { min := none, max := none, avg := none }
      humidity := { min := none, max := none, avg := none } }
  else
    let temps := data.map (·.temperature)
    let hums := data.map (·.humidity)
    { count := data.length
      temperature :=
        { min := some (spreadMin temps)
          max := some (spreadMax temps)
          avg := some (toFixed2 (reduceSum temps / temps.length)) }
      humidity :=
        { min := some (spreadMin hums)
          max := some (spreadMax hums)
          avg := some (toFixed2 (reduceSum hums / hums.length)) } }

/-- A concrete stored reading used to instantiate the theorems. -/
def sampleReading : Reading :=
  { temperature := 20, humidity := 50, created_at := JSVal.null,
    source := thingspeakTag }

/-- The spec's example window: three readings with temperatures
`{20, 25, 30}` (humidities `{40, 50, 60}`). -/
def exampleWindow : List Reading :=
  [ { temperature := 20, humidity := 40, created_at := JSVal.null, source := thingspeakTag }
  , { temperature := 25, humidity := 50, created_at := JSVal.null, source := thingspeakTag }
  , { temperature := 30, humidity := 60, created_at := JSVal.null, source := thingspeakTag } ]

/-! Helper lemmas about the fold-based `Math.min`/`Math.max` spreads
and the fold-based sum. -/

theorem foldl_min_le_init (x : ℚ) (xs : List ℚ) : xs.foldl min x ≤ x := by
  induction xs generalizing x with
  | nil => exact le_refl x
  | cons c cs ih => exact le_trans (ih (min x c)) (min_le_left x c)

theorem foldl_min_le_mem (x y : ℚ) (xs : List ℚ) (hy : y ∈ xs) :
    xs.foldl min x ≤ y := by
  induction xs generalizing x with
  | nil => cases hy
  | cons c cs ih =>
    rcases List.mem_cons.mp hy with h | h
    · subst h
      exact le_trans (foldl_min_le_init (min x y) cs) (min_le_right x y)
    · exact ih (min x c) h

theorem foldl_min_mem (x : ℚ) (xs : List ℚ) : xs.foldl min x ∈ x :: xs := by
  induction xs generalizing x with
  | nil => exact List.mem_singleton.mpr rfl
  | cons c cs ih =>
    rcases List.mem_cons.mp (ih (min x c)) with h | h
    · rcases min_choice x c with hm | hm
      · exact List.mem_cons.mpr (Or.inl (h.trans hm))
      · exact List.mem_cons.mpr (Or.inr (List.mem_cons.mpr (Or.inl (h.trans hm))))
    · exact List.mem_cons.mpr (Or.inr (List.mem_cons.mpr (Or.inr h)))

theorem foldl_max_init_le (x : ℚ) (xs : List ℚ) : x ≤ xs.foldl max x := by
  induction xs generalizing x with
  | nil => exact le_refl x
  | cons c cs ih => exact le_trans (le_max_left x c) (ih (max x c))

theorem foldl_max_mem_le (x y : ℚ) (xs : List ℚ) (hy : y ∈ xs) :
    y ≤ xs.foldl max x := by
  induction xs generalizing x with
  | nil => cases hy
  | cons c cs ih =>
    rcases List.mem_cons.mp hy with h | h
    · subst h
      exact le_trans (le_max_right x y) (foldl_max_init_le (max x y) cs)
    · exact ih (max x c) h

theorem foldl_max_mem (x : ℚ) (xs : List ℚ) : xs.foldl max x ∈ x :: xs := by
  induction xs generalizing x with
  | nil => exact List.mem_singleton.mpr rfl
  | cons c cs ih =>
    rcases List.mem_cons.mp (ih (max x c)) with h | h
    · rcases max_choice x c with hm | hm
      · exact List.mem_cons.mpr (Or.inl (h.trans hm))
      · exact List.mem_cons.mpr (Or.inr (List.mem_cons.mpr (Or.inl (h.trans hm))))
    · exact List.mem_cons.mpr (Or.inr (List.mem_cons.mpr (Or.inr h)))

theorem spreadMin_mem (xs : List ℚ) (hxs : xs ≠ []) : spreadMin xs ∈ xs := by
  cases xs with
  | nil => exact absurd rfl hxs
  | cons x rest => exact foldl_min_mem x rest

theorem spreadMin_le (xs : List ℚ) (y : ℚ) (hy : y ∈ xs) : spreadMin xs ≤ y := by
  cases xs with
  | nil => cases hy
  | cons x rest =>
    rcases List.mem_cons.mp hy with h | h
    · subst h; exact foldl_min_le_init y rest
    · exact foldl_min_le_mem x y rest h

theorem spreadMax_mem (xs : List ℚ) (hxs : xs ≠ []) : spreadMax xs ∈ xs := by
  cases xs with
  | nil => exact absurd rfl hxs
  | cons x rest => exact foldl_max_mem x rest

theorem spreadMax_ge (xs : List ℚ) (y : ℚ) (hy : y ∈ xs) : y ≤ spreadMax xs := by
  cases xs with
  | nil => cases hy
  | cons x rest =>
    rcases List.mem_cons.mp hy with h | h
    · subst h; exact foldl_max_init_le y rest
    · exact foldl_max_mem_le x y rest h

theorem reduceSum_eq_sum (xs : List ℚ) : reduceSum xs = xs.sum := by
  rw [reduceSum, List.sum_eq_foldl]

/-! Helper lemmas about the webhook handler's branches. -/

theorem parseFloat_finite_ne_undef (v : JSVal) (q : ℚ) (h : parseFloat v = .finite q) :
    v ≠ JSVal.undef := by
  intro e
  rw [e] at h
  exact absurd h (by simp [parseFloat])

theorem handleWebhook_accept (envSecret : List Char) (store : List Reading)
    (now t h c : JSVal) (qt qh : ℚ)
    (ht : parseFloat t = .finite qt) (hh : parseFloat h = .finite qh)
    (rt1 : -50 ≤ qt) (rt2 : qt ≤ 100) (rh1 : 0 ≤ qh) (rh2 : qh ≤ 100) :
    handleWebhook envSecret store now ⟨some envSecret, t, h, c⟩ =
      { outcome := .saved { temperature := qt, humidity := qh,
                            created_at := if jsTruthy c then c else now,
                            source := thingspeakTag }
        store := store ++ [{ temperature := qt, humidity := qh,
                             created_at := if jsTruthy c then c else now,
                             source := thingspeakTag }] } := by
  have htu : t ≠ JSVal.undef := parseFloat_finite_ne_undef t qt ht
  have hhu : h ≠ JSVal.undef := parseFloat_finite_ne_undef h qh hh
  simp [handleWebhook, htu, hhu, ht, hh, JSNum.isNaN, JSNum.ltQ, JSNum.gtQ,
    JSNum.toQ, not_lt.mpr rt1, not_lt.mpr rh1]
  exact ⟨rt2, rh2⟩

theorem handleWebhook_reject_range (envSecret : List Char) (store : List Reading)
    (now t h c : JSVal)
    (htu : t ≠ JSVal.undef) (hhu : h ≠ JSVal.undef)
    (hguard : ((parseFloat t).isNaN || (parseFloat h).isNaN
        || (parseFloat t).ltQ (-50) || (parseFloat t).gtQ 100
        || (parseFloat h).ltQ 0 || (parseFloat h).gtQ 100) = true) :
    handleWebhook envSecret store now ⟨some envSecret, t, h, c⟩ =
      { outcome := .valuesOutOfRange, store := store } := by
  simp only [handleWebhook]
  rw [if_neg (by simp), if_neg (by simp [htu, hhu])]
  simp [hguard]

theorem parseFloat_not_nan_ne_undef (v : JSVal) (h : (parseFloat v).isNaN = false) :
    v ≠ JSVal.undef := by
  intro e
  rw [e] at h
  exact absurd h (by simp [parseFloat, JSNum.isNaN])

/-- C1: for every inbound push whose `x-webhook-secret` header is missing
or differs from the configured secret, the webhook responds with the 401
`Unauthorized` error and the store is unchanged (no append is issued),
whatever the payload fields hold. -/
theorem c1_unauthorized_rejected (envSecret : List Char) (store : List Reading)
    (now : JSVal) (req : WebhookReq) (hsec : req.secretHeader ≠ some envSecret) :
    handleWebhook envSecret store now req =
      { outcome := .unauthorized, store := store } ∧
    webhookStatus (handleWebhook envSecret store now req).outcome = 401 := by
  have hrun : handleWebhook envSecret store now req =
      { outcome := .unauthorized, store := store } := by
    simp [handleWebhook, hsec]
  exact ⟨hrun, by rw [hrun]; rfl⟩

theorem c1_witness :
    (some ['w'] ≠ some ['s', 'e', 'c']) ∧
    (handleWebhook ['s', 'e', 'c'] [] JSVal.null
        ⟨some ['w'], JSVal.num 20, JSVal.num 50, JSVal.undef⟩ =
      { outcome := .unauthorized, store := [] } ∧
    webhookStatus (handleWebhook ['s', 'e', 'c'] [] JSVal.null
        ⟨some ['w'], JSVal.num 20, JSVal.num 50, JSVal.undef⟩).outcome = 401) :=
  ⟨by decide,
   c1_unauthorized_rejected ['s', 'e', 'c'] [] JSVal.null
     ⟨some ['w'], JSVal.num 20, JSVal.num 50, JSVal.undef⟩ (by decide)⟩

/-- C2: for every push carrying the configured secret whose temperature
coerces to a finite number in `[-50, 100]` and whose humidity coerces to
a finite number in `[0, 100]`, the webhook responds 201 and exactly one
new Reading holding the coerced values is appended to the store. -/
theorem c2_valid_push_created (envSecret : List Char) (store : List Reading)
    (now t h c : JSVal) (qt qh : ℚ)
    (ht : parseFloat t = .finite qt) (hh : parseFloat h = .finite qh)
    (rt1 : -50 ≤ qt) (rt2 : qt ≤ 100) (rh1 : 0 ≤ qh) (rh2 : qh ≤ 100) :
    handleWebhook envSecret store now ⟨some envSecret, t, h, c⟩ =
      { outcome := .saved { temperature := qt, humidity := qh,
                            created_at := if jsTruthy c then c else now,
                            source := thingspeakTag }
        store := store ++ [{ temperature := qt, humidity := qh,
                             created_at := if jsTruthy c then c else now,
                             source := thingspeakTag }] } ∧
    webhookStatus (handleWebhook envSecret store now ⟨some envSecret, t, h, c⟩).outcome
      = 201 := by
  have hrun := handleWebhook_accept envSecret store now t h c qt qh ht hh rt1 rt2 rh1 rh2
  exact ⟨hrun, by rw [hrun]; rfl⟩

theorem c2_witness :
    (parseFloat (JSVal.num (47 / 2)) = .finite (47 / 2) ∧
     parseFloat (JSVal.num 61) = .finite 61 ∧
     (-50 : ℚ) ≤ 47 / 2 ∧ (47 / 2 : ℚ) ≤ 100 ∧ (0 : ℚ) ≤ 61 ∧ (61 : ℚ) ≤ 100) ∧
    (handleWebhook ['s'] [] JSVal.null
        ⟨some ['s'], JSVal.num (47 / 2), JSVal.num 61, JSVal.undef⟩ =
      { outcome := .saved { temperature := 47 / 2, humidity := 61,
                            created_at := if jsTruthy JSVal.undef then JSVal.undef else JSVal.null,
                            source := thingspeakTag }
        store := [{ temperature := 47 / 2, humidity := 61,
                    created_at := if jsTruthy JSVal.undef then JSVal.undef else JSVal.null,
                    source := thingspeakTag }] } ∧
    webhookStatus (handleWebhook ['s'] [] JSVal.null
        ⟨some ['s'], JSVal.num (47 / 2), JSVal.num 61, JSVal.undef⟩).outcome = 201) :=
  ⟨⟨rfl, rfl, by with_unfolding_all decide, by with_unfolding_all decide,
    by with_unfolding_all decide, by with_unfolding_all decide⟩,
   c2_valid_push_created ['s'] [] JSVal.null (JSVal.num (47 / 2)) (JSVal.num 61)
     JSVal.undef (47 / 2) 61 rfl rfl
     (by with_unfolding_all decide) (by with_unfolding_all decide)
     (by with_unfolding_all decide) (by with_unfolding_all decide)⟩

/-- C3: for every authorized push where both fields parse as numbers
(`parseFloat` is not `NaN`) but one of them is below or above its valid
range, the webhook responds with the 400 out-of-range error and the
store is unchanged. -/
theorem c3_out_of_range_rejected (envSecret : List Char) (store : List Reading)
    (now t h c : JSVal)
    (htn : (parseFloat t).isNaN = false) (hhn : (parseFloat h).isNaN = false)
    (hoor : ((parseFloat t).ltQ (-50) || (parseFloat t).gtQ 100
        || (parseFloat h).ltQ 0 || (parseFloat h).gtQ 100) = true) :
    handleWebhook envSecret store now ⟨some envSecret, t, h, c⟩ =
      { outcome := .valuesOutOfRange, store := store } ∧
    webhookStatus (handleWebhook envSecret store now ⟨some envSecret, t, h, c⟩).outcome
      = 400 := by
  have hrun := handleWebhook_reject_range envSecret store now t h c
    (parseFloat_not_nan_ne_undef t htn) (parseFloat_not_nan_ne_undef h hhn)
    (by simp only [Bool.or_eq_true] at hoor ⊢; tauto)
  exact ⟨hrun, by rw [hrun]; rfl⟩

theorem c3_witness :
    ((parseFloat (JSVal.num 150)).isNaN = false ∧
     (parseFloat (JSVal.num 50)).isNaN = false ∧
     (((parseFloat (JSVal.num 150)).ltQ (-50) || (parseFloat (JSVal.num 150)).gtQ 100
        || (parseFloat (JSVal.num 50)).ltQ 0 || (parseFloat (JSVal.num 50)).gtQ 100) = true)) ∧
    handleWebhook ['s'] [] JSVal.null
        ⟨some ['s'], JSVal.num 150, JSVal.num 50, JSVal.undef⟩ =
      { outcome := .valuesOutOfRange, store := [] } :=
  ⟨⟨rfl, rfl, by with_unfolding_all decide⟩,
   (c3_out_of_range_rejected ['s'] [] JSVal.null (JSVal.num 150) (JSVal.num 50)
     JSVal.undef rfl rfl (by with_unfolding_all decide)).1⟩

/-- C4 counterexample: an authorized push whose temperature is present
but non-numeric (`'abc'`, coercing to `NaN`) receives *exactly the same
response* as one whose temperature is numeric but out of range (`150`):
the single combined 400 `'Valores fuera de rango'` rejection.  So
not-a-number is not a rejection reason distinguishable from
out-of-range, contrary to the claim. -/
theorem c4_counterexample :
    handleWebhook ['s'] [] JSVal.null
        ⟨some ['s'], JSVal.str ['a', 'b', 'c'], JSVal.num 50, JSVal.undef⟩ =
      handleWebhook ['s'] [] JSVal.null
        ⟨some ['s'], JSVal.num 150, JSVal.num 50, JSVal.undef⟩ ∧
    (handleWebhook ['s'] [] JSVal.null
        ⟨some ['s'], JSVal.str ['a', 'b', 'c'], JSVal.num 50, JSVal.undef⟩).outcome =
      .valuesOutOfRange := by
  with_unfolding_all decide

/-- C4 (amended): the validator checks presence first and short-circuits
with the distinct missing-field rejection; for present fields, numeric
coercion and range are checked together in one combined condition with a
single shared rejection, so a present but non-numeric payload yields the
same out-of-range response as an out-of-range one, and only missing-field
is a distinguishable rejection reason. -/
theorem c4_check_order (envSecret : List Char) (store : List Reading)
    (now t h c : JSVal) :
    (t = JSVal.undef ∨ h = JSVal.undef →
      handleWebhook envSecret store now ⟨some envSecret, t, h, c⟩ =
        { outcome := .missingFields, store := store }) ∧
    (t ≠ JSVal.undef → h ≠ JSVal.undef → (parseFloat t).isNaN = true →
      handleWebhook envSecret store now ⟨some envSecret, t, h, c⟩ =
        { outcome := .valuesOutOfRange, store := store }) ∧
    webhookErrorMsg .missingFields ≠ webhookErrorMsg .valuesOutOfRange := by
  refine ⟨?_, ?_, by decide⟩
  · intro hmiss
    rcases hmiss with e | e <;> subst e <;> simp [handleWebhook]
  · intro htu hhu hnan
    exact handleWebhook_reject_range envSecret store now t h c htu hhu (by simp [hnan])

theorem c4_witness :
    ((JSVal.str ['a', 'b', 'c'] ≠ JSVal.undef) ∧ (JSVal.num 50 ≠ JSVal.undef) ∧
     (parseFloat (JSVal.str ['a', 'b', 'c'])).isNaN = true) ∧
    handleWebhook ['s'] [] JSVal.null
        ⟨some ['s'], JSVal.str ['a', 'b', 'c'], JSVal.num 50, JSVal.undef⟩ =
      { outcome := .valuesOutOfRange, store := [] } :=
  ⟨⟨by decide, by decide, by decide⟩,
   (c4_check_order ['s'] [] JSVal.null (JSVal.str ['a', 'b', 'c']) (JSVal.num 50)
     JSVal.undef).2.1 (by decide) (by decide) (by decide)⟩

/-- C5: on an empty store, `app.get('/api/readings/latest')` does not
return the claimed `{success, data: null}` result: Supabase's
`.single()` errors on zero rows, so the handler throws and responds
with the 500 database-error response instead. -/
theorem c5_latest_empty_store_errors :
    handleLatest [] = LatestResult.dbError ∧
    ∀ r : Reading, handleLatest [] ≠ LatestResult.ok r := by
  exact ⟨rfl, fun r h => LatestResult.noConfusion h⟩

/-- C6: the stats aggregation of the empty sequence of readings yields
`count = 0` and all six extrema `null`; the guarded empty branch is
taken, so the division by the sequence length is never evaluated. -/
theorem c6_stats_empty :
    computeStats [] =
      { count := 0
        temperature := { min := none, max := none, avg := none }
        humidity := { min := none, max := none, avg := none } } := rfl

/-- C7: for every non-empty sequence of readings, the stats aggregation
returns `count` equal to the sequence length, `min`/`max` attained by
and bounding the unrounded values, and `avg` equal to the arithmetic
mean rounded to two decimal places — and on the example window with
temperatures `{20, 25, 30}` it returns `min = 20`, `max = 30`,
`avg = 25.00`. -/
theorem c7_stats_nonempty :
    (∀ l : List Reading, l ≠ [] →
      (computeStats l).count = l.length ∧
      (∃ m, (computeStats l).temperature.min = some m ∧
        m ∈ l.map (·.temperature) ∧ ∀ x ∈ l.map (·.temperature), m ≤ x) ∧
      (∃ M, (computeStats l).temperature.max = some M ∧
        M ∈ l.map (·.temperature) ∧ ∀ x ∈ l.map (·.temperature), x ≤ M) ∧
      (computeStats l).temperature.avg =
        some (toFixed2 ((l.map (·.temperature)).sum / l.length)) ∧
      (∃ m, (computeStats l).humidity.min = some m ∧
        m ∈ l.map (·.humidity) ∧ ∀ x ∈ l.map (·.humidity), m ≤ x) ∧
      (∃ M, (computeStats l).humidity.max = some M ∧
        M ∈ l.map (·.humidity) ∧ ∀ x ∈ l.map (·.humidity), x ≤ M) ∧
      (computeStats l).humidity.avg =
        some (toFixed2 ((l.map (·.humidity)).sum / l.length))) ∧
    computeStats exampleWindow =
      { count := 3
        temperature := { min := some 20, max := some 30, avg := some 25 }
        humidity := { min := some 40, max := some 60, avg := some 50 } } := by
  constructor
  · intro l hl
    have hlen : ¬(l.length = 0) := by simpa using hl
    have htne : l.map (·.temperature) ≠ [] := by simpa using hl
    have hhne : l.map (·.humidity) ≠ [] := by simpa using hl
    have hcs : computeStats l =
        { count := l.length
          temperature :=
            { min := some (spreadMin (l.map (·.temperature)))
              max := some (spreadMax (l.map (·.temperature)))
              avg := some (toFixed2 (reduceSum (l.map (·.temperature)) /
                (l.map (·.temperature)).length)) }
          humidity :=
            { min := some (spreadMin (l.map (·.humidity)))
              max := some (spreadMax (l.map (·.humidity)))
              avg := some (toFixed2 (reduceSum (l.map (·.humidity)) /
                (l.map (·.humidity)).length)) } } := by
      unfold computeStats
      rw [if_neg hlen]
    rw [hcs]
    refine ⟨rfl,
      ⟨spreadMin (l.map (·.temperature)), rfl, spreadMin_mem _ htne,
        fun x hx => spreadMin_le _ x hx⟩,
      ⟨spreadMax (l.map (·.temperature)), rfl, spreadMax_mem _ htne,
        fun x hx => spreadMax_ge _ x hx⟩,
      ?_,
      ⟨spreadMin (l.map (·.humidity)), rfl, spreadMin_mem _ hhne,
        fun x hx => spreadMin_le _ x hx⟩,
      ⟨spreadMax (l.map (·.humidity)), rfl, spreadMax_mem _ hhne,
        fun x hx => spreadMax_ge _ x hx⟩,
      ?_⟩
    · simp only [reduceSum_eq_sum, List.length_map]
    · simp only [reduceSum_eq_sum, List.length_map]
  · with_unfolding_all decide

theorem c7_witness :
    (exampleWindow ≠ []) ∧
    (computeStats exampleWindow).count = exampleWindow.length :=
  ⟨by decide, (c7_stats_nonempty.1 exampleWindow (by decide)).1⟩

/-- C8 counterexample: the claim fails at requested limit `0`: with one
stored reading, `parseInt('0') = 0` is falsy, so `parseInt(limit) || 100`
falls back to 100 and the endpoint returns 1 reading — more than
`min(0, 1000) = 0`. -/
theorem c8_counterexample :
    parseIntStr ['0'] = some 0 ∧
    (handleReadings [sampleReading] (some ['0'])).data.length = 1 ∧
    ¬((handleReadings [sampleReading] (some ['0'])).data.length ≤
        (min (0 : Int) 1000).toNat) := by
  refine ⟨by decide, ?_, ?_⟩ <;> with_unfolding_all decide

/-- C8 (amended): for every requested limit that parses to a positive
integer `n`, the recent-readings endpoint returns at most
`min(n, 1000)` readings; for every request it returns at most the hard
cap of 1000; and an absent limit behaves exactly like the default
limit 100 (as does an unparseable or zero limit, via the same `|| 100`
fallback). -/
theorem c8_limit_cap :
    (∀ (nf : List Reading) (s : List Char) (n : Int),
      parseIntStr s = some n → 0 < n →
      (handleReadings nf (some s)).data.length ≤ min n.toNat 1000) ∧
    (∀ (nf : List Reading) (p : Option (List Char)),
      (handleReadings nf p).data.length ≤ 1000) ∧
    (∀ nf : List Reading,
      handleReadings nf none = handleReadings nf (some ['1', '0', '0'])) := by
  refine ⟨?_, ?_, ?_⟩
  · intro nf s n hp hn
    have heff : effectiveLimit (some s) = min n 1000 := by
      simp only [effectiveLimit, hp]
      rw [if_neg (by omega : ¬(n = 0))]
    simp only [handleReadings, storeQueryRecent, List.length_reverse,
      List.length_take, heff]
    omega
  · intro nf p
    have heff : (effectiveLimit p).toNat ≤ 1000 := by
      rcases p with _ | s
      · decide
      · unfold effectiveLimit
        rcases hp : parseIntStr s with _ | n
        · simp only [hp]; omega
        · simp only [hp]
          split <;> omega
    simp only [handleReadings, storeQueryRecent, List.length_reverse,
      List.length_take]
    omega
  · intro nf
    have heq : effectiveLimit none = effectiveLimit (some ['1', '0', '0']) := by
      decide
    unfold handleReadings
    rw [heq]

theorem c8_witness :
    (parseIntStr ['5'] = some 5 ∧ (0 : Int) < 5) ∧
    (handleReadings [sampleReading] (some ['5'])).data.length ≤
      min (Int.toNat 5) 1000 :=
  ⟨⟨by decide, by decide⟩,
   c8_limit_cap.1 [sampleReading] ['5'] 5 (by decide) (by decide)⟩

/-- C9: for every request, the recent-readings response `data` is
exactly the reversal of the sequence the store's newest-first query
returned (the handler, not the store, performs the reordering via
`data.reverse()`), `count` is that sequence's length, and with no
stored data the response is `{success: true, count: 0, data: []}`. -/
theorem c9_readings_reversed (nf : List Reading) (p : Option (List Char)) :
    (handleReadings nf p).data =
      (storeQueryRecent nf (effectiveLimit p)).reverse ∧
    (handleReadings nf p).count =
      (storeQueryRecent nf (effectiveLimit p)).length ∧
    (handleReadings nf p).success = true ∧
    handleReadings [] p = { success := true, count := 0, data := [] } := by
  refine ⟨rfl, rfl, rfl, ?_⟩
  simp [handleReadings, storeQueryRecent]

/-- C10 counterexample: the claim fails for the authorized push with
temperature `'150abc'` and humidity `'50'`: the decimal prefix `150`
does coerce, but it is out of range, so the push is rejected with the
400 out-of-range response and nothing is stored — it is not accepted as
the claim states. -/
theorem c10_counterexample :
    parseFloatStr ['1', '5', '0', 'a', 'b', 'c'] = JSNum.finite 150 ∧
    handleWebhook ['s'] [] JSVal.null
        ⟨some ['s'], JSVal.str ['1', '5', '0', 'a', 'b', 'c'],
         JSVal.str ['5', '0'], JSVal.undef⟩ =
      { outcome := .valuesOutOfRange, store := [] } := by
  with_unfolding_all decide

/-- C10 (amended): for every authorized push whose temperature and
humidity are strings coercing (for instance via a parseable decimal
prefix followed by non-numeric characters) to finite values *within the
valid ranges*, the push is accepted and the stored Reading holds the
prefix numbers; an out-of-range prefix is instead rejected by the range
check, not as not-a-number. -/
theorem c10_prefix_coercion (envSecret : List Char) (store : List Reading)
    (now c : JSVal) (s1 s2 : List Char) (q1 q2 : ℚ)
    (h1 : parseFloatStr s1 = .finite q1) (h2 : parseFloatStr s2 = .finite q2)
    (r1 : -50 ≤ q1) (r2 : q1 ≤ 100) (r3 : 0 ≤ q2) (r4 : q2 ≤ 100) :
    handleWebhook envSecret store now ⟨some envSecret, .str s1, .str s2, c⟩ =
      { outcome := .saved { temperature := q1, humidity := q2,
                            created_at := if jsTruthy c then c else now,
                            source := thingspeakTag }
        store := store ++ [{ temperature := q1, humidity := q2,
                             created_at := if jsTruthy c then c else now,
                             source := thingspeakTag }] } :=
  handleWebhook_accept envSecret store now (.str s1) (.str s2) c q1 q2 h1 h2 r1 r2 r3 r4

theorem c10_witness :
    (parseFloatStr ['2', '3', '.', '5', 'a', 'b', 'c'] = JSNum.finite (47 / 2) ∧
     parseFloatStr ['6', '1', 'x', 'y', 'z'] = JSNum.finite 61 ∧
     (-50 : ℚ) ≤ 47 / 2 ∧ (47 / 2 : ℚ) ≤ 100 ∧ (0 : ℚ) ≤ 61 ∧ (61 : ℚ) ≤ 100) ∧
    handleWebhook ['s'] [] JSVal.null
        ⟨some ['s'], JSVal.str ['2', '3', '.', '5', 'a', 'b', 'c'],
         JSVal.str ['6', '1', 'x', 'y', 'z'], JSVal.undef⟩ =
      { outcome := .saved { temperature := 47 / 2, humidity := 61,
                            created_at := JSVal.null, source := thingspeakTag }
        store := [{ temperature := 47 / 2, humidity := 61,
                    created_at := JSVal.null, source := thingspeakTag }] } :=
  ⟨⟨by with_unfolding_all decide, by with_unfolding_all decide,
    by with_unfolding_all decide, by with_unfolding_all decide,
    by with_unfolding_all decide, by with_unfolding_all decide⟩,
   c10_prefix_coercion ['s'] [] JSVal.null JSVal.undef
     ['2', '3', '.', '5', 'a', 'b', 'c'] ['6', '1', 'x', 'y', 'z'] (47 / 2) 61
     (by with_unfolding_all decide) (by with_unfolding_all decide)
     (by with_unfolding_all decide) (by with_unfolding_all decide)
     (by with_unfolding_all decide) (by with_unfolding_all decide)⟩
